import Mathlib

/-
Verification of the encoding-detection and fallback-decoding engine of the
`inspector` code base (file `inspector/main.py`): the function
`decode_with_fallback` together with its three statistical heuristics
`_is_likely_text`, `_is_likely_misencoded_asian_text` and
`_is_likely_misencoded_cross_asian`.

Embedding conventions:
- A Python `bytes` buffer is a `List Nat` whose entries are byte values
  (0 ≤ b < 256 by construction on the Python side).
- A Python `str` is a `List Nat` of Unicode scalar values, so `ord c` is the
  element itself, `len` is `List.length`, and `sum(1 for c in s if P c)` is
  `List.countP`.
- Python float literals `0.3`, `0.5`, `0.1`, and float division, are modelled
  by exact rational arithmetic over `ℚ` (the double nearest to each of these
  literals compares identically to the exact rational on all the small integer
  ratios that occur here).
- `bytes.decode(encoding)` raising `UnicodeDecodeError`/`LookupError` is
  modelled by an `Option`-valued decoder returning `none`.

The codecs themselves live in the Python runtime, not in this repository, so
they are modelled: UTF-8 and the single-byte codecs (cp1251, iso-8859-2,
cp1252, latin-1) are modelled completely; the East-Asian double-byte codecs
(shift_jis, euc-kr, big5, gbk, gb2312) are modelled by their byte-structure
(ASCII bytes decode to themselves, a shift_jis byte in 0xA1–0xDF decodes to
half-width katakana, any other high byte opens a two-byte lookup) together
with a partial pair table that contains exactly the assigned pairs, with the
reference codec's values, that the concrete buffers studied in this file
exercise; a pair absent from the table decodes to `none`.  On every
(buffer, codec) query made by the theorems below, the modelled decoder agrees
with the reference codec about success/failure of the whole buffer and about
the decoded text whenever it succeeds.
-/

/-- `c.isalpha() and ord(c) < 128` in Python can only observe `str.isalpha`
on the ASCII range, where it holds exactly for A–Z and a–z. -/
def pyIsAlphaAscii (c : Nat) : Bool :=
  (0x41 ≤ c && c ≤ 0x5A) || (0x61 ≤ c && c ≤ 0x7A)

/-- `ord(c) < 32 and c not in "\t\n\r"`: a control code point other than
tab (9), newline (10), carriage return (13). -/
def isCtrlNonWs (c : Nat) : Bool :=
  c < 32 && !(c == 9 || c == 10 || c == 13)

/-- A UTF-8 continuation byte: 0x80–0xBF. -/
def utf8Cont (b : Nat) : Bool := 0x80 ≤ b && b ≤ 0xBF

/-- First continuation byte constraint after a three-byte lead: 0xE0 forces
0xA0–0xBF (no overlongs), 0xED forces 0x80–0x9F (no surrogates). -/
def utf8Cont2Ok (b b1 : Nat) : Bool :=
  if b == 0xE0 then 0xA0 ≤ b1 && b1 ≤ 0xBF
  else if b == 0xED then 0x80 ≤ b1 && b1 ≤ 0x9F
  else utf8Cont b1

/-- First continuation byte constraint after a four-byte lead: 0xF0 forces
0x90–0xBF (no overlongs), 0xF4 forces 0x80–0x8F (≤ U+10FFFF). -/
def utf8Cont3Ok (b b1 : Nat) : Bool :=
  if b == 0xF0 then 0x90 ≤ b1 && b1 ≤ 0xBF
  else if b == 0xF4 then 0x80 ≤ b1 && b1 ≤ 0x8F
  else utf8Cont b1

/-- Model of the runtime's strict UTF-8 decoder (RFC 3629): rejects invalid
lead bytes, truncated sequences, bad continuation bytes, overlong forms,
surrogates and values above U+10FFFF. -/
def utf8Decode : List Nat → Option (List Nat)
  | [] => some []
  | b :: rest =>
    if b < 0x80 then
      (utf8Decode rest).map (b :: ·)
    else if 0xC2 ≤ b && b ≤ 0xDF then
      match rest with
      | [] => none
      | b1 :: rest1 =>
        if utf8Cont b1 then
          (utf8Decode rest1).map (((b - 0xC0) * 0x40 + (b1 - 0x80)) :: ·)
        else none
    else if 0xE0 ≤ b && b ≤ 0xEF then
      match rest with
      | b1 :: b2 :: rest2 =>
        if utf8Cont2Ok b b1 && utf8Cont b2 then
          (utf8Decode rest2).map
            (((b - 0xE0) * 0x1000 + (b1 - 0x80) * 0x40 + (b2 - 0x80)) :: ·)
        else none
      | _ => none
    else if 0xF0 ≤ b && b ≤ 0xF4 then
      match rest with
      | b1 :: b2 :: b3 :: rest3 =>
        if utf8Cont3Ok b b1 && utf8Cont b2 && utf8Cont b3 then
          (utf8Decode rest3).map
            (((b - 0xF0) * 0x40000 + (b1 - 0x80) * 0x1000 +
              (b2 - 0x80) * 0x40 + (b3 - 0x80)) :: ·)
        else none
      | _ => none
    else none

/-- Decode a buffer one byte at a time through a single-byte table. -/
def mapDecode (f : Nat → Option Nat) : List Nat → Option (List Nat)
  | [] => some []
  | b :: rest =>
    match f b with
    | none => none
    | some c => (mapDecode f rest).map (c :: ·)

/-- cp1251 byte table (complete: 0x98 is the single unassigned byte). -/
def cp1251Byte (b : Nat) : Option Nat :=
  if b < 0x80 then some b
  else
    match b with
    | 0x80 => some 0x0402
    | 0x81 => some 0x0403
    | 0x82 => some 0x201A
    | 0x83 => some 0x0453
    | 0x84 => some 0x201E
    | 0x85 => some 0x2026
    | 0x86 => some 0x2020
    | 0x87 => some 0x2021
    | 0x88 => some 0x20AC
    | 0x89 => some 0x2030
    | 0x8A => some 0x0409
    | 0x8B => some 0x2039
    | 0x8C => some 0x040A
    | 0x8D => some 0x040C
    | 0x8E => some 0x040B
    | 0x8F => some 0x040F
    | 0x90 => some 0x0452
    | 0x91 => some 0x2018
    | 0x92 => some 0x2019
    | 0x93 => some 0x201C
    | 0x94 => some 0x201D
    | 0x95 => some 0x2022
    | 0x96 => some 0x2013
    | 0x97 => some 0x2014
    | 0x98 => none
    | 0x99 => some 0x2122
    | 0x9A => some 0x0459
    | 0x9B => some 0x203A
    | 0x9C => some 0x045A
    | 0x9D => some 0x045C
    | 0x9E => some 0x045B
    | 0x9F => some 0x045F
    | 0xA0 => some 0x00A0
    | 0xA1 => some 0x040E
    | 0xA2 => some 0x045E
    | 0xA3 => some 0x0408
    | 0xA4 => some 0x00A4
    | 0xA5 => some 0x0490
    | 0xA6 => some 0x00A6
    | 0xA7 => some 0x00A7
    | 0xA8 => some 0x0401
    | 0xA9 => some 0x00A9
    | 0xAA => some 0x0404
    | 0xAB => some 0x00AB
    | 0xAC => some 0x00AC
    | 0xAD => some 0x00AD
    | 0xAE => some 0x00AE
    | 0xAF => some 0x0407
    | 0xB0 => some 0x00B0
    | 0xB1 => some 0x00B1
    | 0xB2 => some 0x0406
    | 0xB3 => some 0x0456
    | 0xB4 => some 0x0491
    | 0xB5 => some 0x00B5
    | 0xB6 => some 0x00B6
    | 0xB7 => some 0x00B7
    | 0xB8 => some 0x0451
    | 0xB9 => some 0x2116
    | 0xBA => some 0x0454
    | 0xBB => some 0x00BB
    | 0xBC => some 0x0458
    | 0xBD => some 0x0405
    | 0xBE => some 0x0455
    | 0xBF => some 0x0457
    | _ =>
      if 0xC0 ≤ b && b ≤ 0xFF then some (0x0410 + (b - 0xC0)) else none

/-- cp1252 byte table (complete: bytes 0x81, 0x8D, 0x8F, 0x90, 0x9D are
unassigned; 0xA0–0xFF and ASCII decode to themselves). -/
def cp1252Byte (b : Nat) : Option Nat :=
  if b < 0x80 then some b
  else if 0xA0 ≤ b && b ≤ 0xFF then some b
  else
    match b with
    | 0x80 => some 0x20AC
    | 0x81 => none
    | 0x82 => some 0x201A
    | 0x83 => some 0x0192
    | 0x84 => some 0x201E
    | 0x85 => some 0x2026
    | 0x86 => some 0x2020
    | 0x87 => some 0x2021
    | 0x88 => some 0x02C6
    | 0x89 => some 0x2030
    | 0x8A => some 0x0160
    | 0x8B => some 0x2039
    | 0x8C => some 0x0152
    | 0x8D => none
    | 0x8E => some 0x017D
    | 0x8F => none
    | 0x90 => none
    | 0x91 => some 0x2018
    | 0x92 => some 0x2019
    | 0x93 => some 0x201C
    | 0x94 => some 0x201D
    | 0x95 => some 0x2022
    | 0x96 => some 0x2013
    | 0x97 => some 0x2014
    | 0x98 => some 0x02DC
    | 0x99 => some 0x2122
    | 0x9A => some 0x0161
    | 0x9B => some 0x203A
    | 0x9C => some 0x0153
    | 0x9D => none
    | 0x9E => some 0x017E
    | 0x9F => some 0x0178
    | _ => none

/-- iso-8859-2 byte table (complete: every byte is assigned; 0x00–0x9F
decode to themselves). -/
def iso88592Byte (b : Nat) : Option Nat :=
  if b < 0xA0 then some b
  else
    match b with
    | 0xA0 => some 0x00A0
    | 0xA1 => some 0x0104
    | 0xA2 => some 0x02D8
    | 0xA3 => some 0x0141
    | 0xA4 => some 0x00A4
    | 0xA5 => some 0x013D
    | 0xA6 => some 0x015A
    | 0xA7 => some 0x00A7
    | 0xA8 => some 0x00A8
    | 0xA9 => some 0x0160
    | 0xAA => some 0x015E
    | 0xAB => some 0x0164
    | 0xAC => some 0x0179
    | 0xAD => some 0x00AD
    | 0xAE => some 0x017D
    | 0xAF => some 0x017B
    | 0xB0 => some 0x00B0
    | 0xB1 => some 0x0105
    | 0xB2 => some 0x02DB
    | 0xB3 => some 0x0142
    | 0xB4 => some 0x00B4
    | 0xB5 => some 0x013E
    | 0xB6 => some 0x015B
    | 0xB7 => some 0x02C7
    | 0xB8 => some 0x00B8
    | 0xB9 => some 0x0161
    | 0xBA => some 0x015F
    | 0xBB => some 0x0165
    | 0xBC => some 0x017A
    | 0xBD => some 0x02DD
    | 0xBE => some 0x017E
    | 0xBF => some 0x017C
    | 0xC0 => some 0x0154
    | 0xC1 => some 0x00C1
    | 0xC2 => some 0x00C2
    | 0xC3 => some 0x0102
    | 0xC4 => some 0x00C4
    | 0xC5 => some 0x0139
    | 0xC6 => some 0x0106
    | 0xC7 => some 0x00C7
    | 0xC8 => some 0x010C
    | 0xC9 => some 0x00C9
    | 0xCA => some 0x0118
    | 0xCB => some 0x00CB
    | 0xCC => some 0x011A
    | 0xCD => some 0x00CD
    | 0xCE => some 0x00CE
    | 0xCF => some 0x010E
    | 0xD0 => some 0x0110
    | 0xD1 => some 0x0143
    | 0xD2 => some 0x0147
    | 0xD3 => some 0x00D3
    | 0xD4 => some 0x00D4
    | 0xD5 => some 0x0150
    | 0xD6 => some 0x00D6
    | 0xD7 => some 0x00D7
    | 0xD8 => some 0x0158
    | 0xD9 => some 0x016E
    | 0xDA => some 0x00DA
    | 0xDB => some 0x0170
    | 0xDC => some 0x00DC
    | 0xDD => some 0x00DD
    | 0xDE => some 0x0162
    | 0xDF => some 0x00DF
    | 0xE0 => some 0x0155
    | 0xE1 => some 0x00E1
    | 0xE2 => some 0x00E2
    | 0xE3 => some 0x0103
    | 0xE4 => some 0x00E4
    | 0xE5 => some 0x013A
    | 0xE6 => some 0x0107
    | 0xE7 => some 0x00E7
    | 0xE8 => some 0x010D
    | 0xE9 => some 0x00E9
    | 0xEA => some 0x0119
    | 0xEB => some 0x00EB
    | 0xEC => some 0x011B
    | 0xED => some 0x00ED
    | 0xEE => some 0x00EE
    | 0xEF => some 0x010F
    | 0xF0 => some 0x0111
    | 0xF1 => some 0x0144
    | 0xF2 => some 0x0148
    | 0xF3 => some 0x00F3
    | 0xF4 => some 0x00F4
    | 0xF5 => some 0x0151
    | 0xF6 => some 0x00F6
    | 0xF7 => some 0x00F7
    | 0xF8 => some 0x0159
    | 0xF9 => some 0x016F
    | 0xFA => some 0x00FA
    | 0xFB => some 0x0171
    | 0xFC => some 0x00FC
    | 0xFD => some 0x00FD
    | 0xFE => some 0x0163
    | 0xFF => some 0x02D9
    | _ => none

/-- Generic East-Asian double-byte decoder skeleton: ASCII bytes decode to
themselves, any byte ≥ 0x80 opens a two-byte lookup through `pair`; a lone
trailing high byte or a pair outside the table fails. -/
def dbDecode (pair : Nat → Nat → Option Nat) : List Nat → Option (List Nat)
  | [] => some []
  | b :: rest =>
    if b < 0x80 then
      (dbDecode pair rest).map (b :: ·)
    else
      match rest with
      | [] => none
      | t :: rest1 =>
        match pair b t with
        | none => none
        | some c => (dbDecode pair rest1).map (c :: ·)

/-- Partial shift_jis double-byte table, as (lead, trail, scalar) triples:
exactly the assigned pairs, with the reference codec's values, exercised by
the buffers in this file. -/
def sjisPairs : List (Nat × Nat × Nat) :=
  [(0x82, 0xB1, 0x3053), (0x82, 0xF1, 0x3093), (0x82, 0xC9, 0x306B),
   (0x82, 0xBF, 0x3061), (0x82, 0xCD, 0x306F), (0x90, 0xA2, 0x4E16),
   (0x8A, 0x45, 0x754C), (0xE2, 0xCA, 0x7C17)]

/-- Look a (lead, trail) pair up in a triple table. -/
def pairLookup (pairs : List (Nat × Nat × Nat)) (l t : Nat) : Option Nat :=
  (pairs.find? (fun e => e.1 == l && e.2.1 == t)).map (·.2.2)

/-- shift_jis double-byte lookup through the partial table. -/
def sjisPair (l t : Nat) : Option Nat := pairLookup sjisPairs l t

/-- Model of the runtime's shift_jis decoder: ASCII bytes decode to
themselves, bytes 0xA1–0xDF are half-width katakana U+FF61–U+FF9F, any other
high byte opens a two-byte lookup through the partial table `sjisPair`. -/
def shiftJisDecode : List Nat → Option (List Nat)
  | [] => some []
  | b :: rest =>
    if b < 0x80 then
      (shiftJisDecode rest).map (b :: ·)
    else if 0xA1 ≤ b && b ≤ 0xDF then
      (shiftJisDecode rest).map ((0xFF61 + (b - 0xA1)) :: ·)
    else
      match rest with
      | [] => none
      | t :: rest1 =>
        match sjisPair b t with
        | none => none
        | some c => (shiftJisDecode rest1).map (c :: ·)

/-- Partial euc-kr double-byte table (see `sjisPairs`). -/
def eucKrPairs : List (Nat × Nat × Nat) :=
  [(0xBE, 0xC8, 0xC548), (0xB3, 0xE7, 0xB155), (0xC7, 0xCF, 0xD558),
   (0xBC, 0xBC, 0xC138), (0xBF, 0xE4, 0xC694), (0xC4, 0xE3, 0xCF71),
   (0xBA, 0xC3, 0xBD24), (0xCA, 0xC0, 0x5404), (0xBD, 0xE7, 0xC379),
   (0xD6, 0xD0, 0x6AD3), (0xCE, 0xC4, 0x5321), (0xB2, 0xE2, 0xAFCE),
   (0xCA, 0xD4, 0x687F)]

/-- euc-kr double-byte lookup through the partial table. -/
def eucKrPair (l t : Nat) : Option Nat := pairLookup eucKrPairs l t

/-- Partial big5 double-byte table (see `sjisPairs`). -/
def big5Pairs : List (Nat × Nat × Nat) :=
  [(0xC1, 0x63, 0x7E41), (0xC5, 0xE9, 0x9AD4), (0xA4, 0xA4, 0x4E2D),
   (0xA4, 0xE5, 0x6587), (0xE9, 0x6C, 0x5E68), (0xF6, 0x72, 0x9864),
   (0xB6, 0xE6, 0x55C6), (0xB6, 0x77, 0x920D)]

/-- big5 double-byte lookup through the partial table. -/
def big5Pair (l t : Nat) : Option Nat := pairLookup big5Pairs l t

/-- Partial gbk double-byte table (see `sjisPairs`). -/
def gbkPairs : List (Nat × Nat × Nat) :=
  [(0xE9, 0x6C, 0x9598), (0xF6, 0x72, 0x9C0E),
   (0xB6, 0xE6, 0x8235), (0xB6, 0x77, 0x79DD),
   (0xC4, 0xE3, 0x4F60), (0xBA, 0xC3, 0x597D),
   (0xCA, 0xC0, 0x4E16), (0xBD, 0xE7, 0x754C)]

/-- gbk double-byte lookup through the partial table. -/
def gbkPair (l t : Nat) : Option Nat := pairLookup gbkPairs l t

/-- Partial gb2312 double-byte table (see `sjisPairs`). -/
def gb2312Pairs : List (Nat × Nat × Nat) :=
  [(0xD6, 0xD0, 0x4E2D), (0xCE, 0xC4, 0x6587),
   (0xB2, 0xE2, 0x6D4B), (0xCA, 0xD4, 0x8BD5)]

/-- gb2312 double-byte lookup through the partial table. -/
def gb2312Pair (l t : Nat) : Option Nat := pairLookup gb2312Pairs l t

/-- `content_bytes.decode(encoding)` for the ten encoding names that occur in
`decode_with_fallback`; any other name raises `LookupError`, modelled as
`none`. -/
def pyDecode (bs : List Nat) : String → Option (List Nat)
  | "utf-8" => utf8Decode bs
  | "shift_jis" => shiftJisDecode bs
  | "euc-kr" => dbDecode eucKrPair bs
  | "big5" => dbDecode big5Pair bs
  | "gbk" => dbDecode gbkPair bs
  | "gb2312" => dbDecode gb2312Pair bs
  | "cp1251" => mapDecode cp1251Byte bs
  | "iso-8859-2" => mapDecode iso88592Byte bs
  | "cp1252" => mapDecode cp1252Byte bs
  | "latin-1" => some bs
  | _ => none

/-- Model of `str.encode("utf-8")` on a single scalar value: the standard
1–4 byte form; surrogates and values above U+10FFFF cannot be encoded. -/
def utf8EncodeChar (c : Nat) : Option (List Nat) :=
  if c < 0x80 then some [c]
  else if c < 0x800 then some [0xC0 + c / 0x40, 0x80 + c % 0x40]
  else if c < 0x10000 then
    if 0xD800 ≤ c ∧ c ≤ 0xDFFF then none
    else some [0xE0 + c / 0x1000, 0x80 + c / 0x40 % 0x40, 0x80 + c % 0x40]
  else if c < 0x110000 then
    some [0xF0 + c / 0x40000, 0x80 + c / 0x1000 % 0x40,
          0x80 + c / 0x40 % 0x40, 0x80 + c % 0x40]
  else none

/-- Encode a string one scalar at a time, concatenating the byte runs. -/
def encodeWith (f : Nat → Option (List Nat)) : List Nat → Option (List Nat)
  | [] => some []
  | c :: rest =>
    match f c with
    | none => none
    | some bs => (encodeWith f rest).map (bs ++ ·)

/-- Single-byte encoding as the inverse of the (injective) decode table. -/
def tableEncodeChar (table : Nat → Option Nat) (c : Nat) : Option (List Nat) :=
  ((List.range 256).find? (fun b => table b == some c)).map ([·])

/-- Double-byte encoding as the inverse of a partial pair table (ASCII
scalars encode to themselves). -/
def pairsEncodeChar (pairs : List (Nat × Nat × Nat)) (c : Nat)
    : Option (List Nat) :=
  if c < 0x80 then some [c]
  else (pairs.find? (fun e => e.2.2 == c)).map (fun e => [e.1, e.2.1])

/-- shift_jis encoding: ASCII and half-width katakana by formula, double-byte
scalars through the inverse of the partial pair table. -/
def sjisEncodeChar (c : Nat) : Option (List Nat) :=
  if c < 0x80 then some [c]
  else if 0xFF61 ≤ c && c ≤ 0xFF9F then some [0xA1 + (c - 0xFF61)]
  else (sjisPairs.find? (fun e => e.2.2 == c)).map (fun e => [e.1, e.2.1])

/-- Model of `str.encode(encoding)` for the encodings exercised by the
round-trip properties (the inverse direction of the decoder models above;
the values agree with the reference codecs on every string encoded in this
file). -/
def pyEncode (s : List Nat) : String → Option (List Nat)
  | "utf-8" => encodeWith utf8EncodeChar s
  | "shift_jis" => encodeWith sjisEncodeChar s
  | "euc-kr" => encodeWith (pairsEncodeChar eucKrPairs) s
  | "big5" => encodeWith (pairsEncodeChar big5Pairs) s
  | "gbk" => encodeWith (pairsEncodeChar gbkPairs) s
  | "gb2312" => encodeWith (pairsEncodeChar gb2312Pairs) s
  | "cp1251" => encodeWith (tableEncodeChar cp1251Byte) s
  | "cp1252" => encodeWith (tableEncodeChar cp1252Byte) s
  | "iso-8859-1" => encodeWith (fun c => if c < 0x100 then some [c] else none) s
  | "iso-8859-2" => encodeWith (tableEncodeChar iso88592Byte) s
  | _ => none

/-- A decoded string that is nonempty and at least 70% control characters
(excluding tab, newline, carriage return): the ratio `0.7` is the
cross-multiplied form of `7/10 ≤ countP isCtrlNonWs / length`. -/
def highControl (d : List Nat) : Bool :=
  !d.isEmpty && decide (7 * d.length ≤ 10 * d.countP isCtrlNonWs)


/-- `_is_likely_text(decoded_str)` from `inspector/main.py`: an empty string
is likely text; otherwise the ratio of control characters (excluding tab,
newline, carriage return) to length must be at most 0.3.  The float
comparison `control_chars / len(decoded_str) <= 0.3` is modelled by the
equivalent exact cross-multiplied comparison. -/
def _is_likely_text (decoded_str : List Nat) : Bool :=
  if decoded_str.isEmpty then true
  else
    let control_chars := decoded_str.countP isCtrlNonWs
    decide (10 * control_chars ≤ 3 * decoded_str.length)

/-- `_is_likely_misencoded_asian_text(decoded_str, encoding)` from
`inspector/main.py`: only for cp1252/latin-1 on strings longer than 3;
flags when more than 50% of the code points are in U+0080–U+024F
(Latin-1 Supplement and Latin Extended-A/B) and fewer than 10% are spaces. -/
def _is_likely_misencoded_asian_text (decoded_str : List Nat)
    (encoding : String) : Bool :=
  if ¬(encoding = "cp1252" ∨ encoding = "latin-1")
      ∨ decoded_str.length ≤ 3 then false
  else
    let high_latin := decoded_str.countP (fun c => 0x0080 ≤ c && c ≤ 0x024F)
    let spaces := decoded_str.count 0x20
    -- `high_latin / len > 0.5 and spaces < len * 0.1`, cross-multiplied
    decide (2 * high_latin > decoded_str.length)
      && decide (10 * spaces < decoded_str.length)

/-- `_is_likely_misencoded_cross_asian(decoded_str, encoding)` from
`inspector/main.py`: false on strings of length ≤ 3; pattern 1 flags
shift_jis output that is over 30% half-width katakana (U+FF61–U+FF9F);
pattern 2 flags output of the five Asian codecs that mixes at least two
ASCII letters with CJK ideographs (U+4E00–U+9FFF) making up less than half
the string. -/
def _is_likely_misencoded_cross_asian (decoded_str : List Nat)
    (encoding : String) : Bool :=
  if decoded_str.length ≤ 3 then false
  else
    let pattern1 :=
      if encoding = "shift_jis" then
        let half_width_katakana :=
          decoded_str.countP (fun c => 0xFF61 ≤ c && c ≤ 0xFF9F)
        -- `half_width_katakana / len > 0.3`, cross-multiplied
        decide (10 * half_width_katakana > 3 * decoded_str.length)
      else false
    if pattern1 then true
    else if encoding = "big5" ∨ encoding = "gbk" ∨ encoding = "gb2312"
        ∨ encoding = "shift_jis" ∨ encoding = "euc-kr" then
      let ascii_chars := decoded_str.countP (fun c => c < 128)
      let cjk_chars := decoded_str.countP (fun c => 0x4E00 ≤ c && c ≤ 0x9FFF)
      if ascii_chars > 0 && cjk_chars > 0 then
        let ascii_letters :=
          decoded_str.countP (fun c => pyIsAlphaAscii c && c < 128)
        -- `ascii_letters >= 2 and cjk_chars / len < 0.5`, cross-multiplied
        decide (ascii_letters ≥ 2)
          && decide (2 * cjk_chars < decoded_str.length)
      else false
    else false

/-- The ordered fallback list `common_encodings` from `decode_with_fallback`
(UTF-8 is the separate fast path, not a member). -/
def common_encodings : List String :=
  ["shift_jis", "euc-kr", "big5", "gbk", "gb2312",
   "cp1251", "iso-8859-2", "cp1252", "latin-1"]

/-- One iteration of the `for encoding in common_encodings` loop body:
decode, then the three sanity checks; `none` means this candidate was
skipped (decode error or heuristic rejection), `some` means `return`. -/
def tryEncoding (content_bytes : List Nat) (encoding : String)
    : Option (List Nat) :=
  match pyDecode content_bytes encoding with
  | none => none
  | some decoded =>
    if !_is_likely_text decoded then none
    else if _is_likely_misencoded_asian_text decoded encoding then none
    else if _is_likely_misencoded_cross_asian decoded encoding then none
    else some decoded

/-- The `for` loop of `decode_with_fallback`: first candidate whose
`tryEncoding` returns a value wins; exhaustion gives `None`. -/
def tryEncodings (content_bytes : List Nat) : List String → Option (List Nat)
  | [] => none
  | encoding :: rest =>
    match tryEncoding content_bytes encoding with
    | some decoded => some decoded
    | none => tryEncodings content_bytes rest

/-- `decode_with_fallback(content_bytes)` from `inspector/main.py`: UTF-8
fast path guarded only by `_is_likely_text`, then the ordered candidate
loop, then the `None` sentinel. -/
def decode_with_fallback (content_bytes : List Nat) : Option (List Nat) :=
  match pyDecode content_bytes "utf-8" with
  | some decoded =>
    if _is_likely_text decoded then some decoded
    else tryEncodings content_bytes common_encodings
  | none => tryEncodings content_bytes common_encodings

theorem ratio_le_30 (c n : Nat) (hn : 0 < n) :
    ((c : ℚ) / (n : ℚ) ≤ 3 / 10) ↔ 10 * c ≤ 3 * n := by
  have hn' : (0 : ℚ) < (n : ℚ) := by exact_mod_cast hn
  rw [div_le_div_iff hn' (by norm_num)]
  rw [show ((c : ℚ) * 10 = ((10 * c : Nat) : ℚ)) by push_cast; ring,
      show ((3 : ℚ) * (n : ℚ) = ((3 * n : Nat) : ℚ)) by push_cast; ring]
  exact Nat.cast_le

theorem ratio_gt_half (c n : Nat) (hn : 0 < n) :
    ((c : ℚ) / (n : ℚ) > 1 / 2) ↔ n < 2 * c := by
  have hn' : (0 : ℚ) < (n : ℚ) := by exact_mod_cast hn
  rw [gt_iff_lt, div_lt_div_iff (by norm_num) hn']
  rw [show ((1 : ℚ) * (n : ℚ) = ((n : Nat) : ℚ)) by push_cast; ring,
      show ((c : ℚ) * 2 = ((2 * c : Nat) : ℚ)) by push_cast; ring]
  exact Nat.cast_lt

theorem lt_tenth (s n : Nat) :
    ((s : ℚ) < (n : ℚ) * (1 / 10)) ↔ 10 * s < n := by
  rw [show ((n : ℚ) * (1 / 10) = (n : ℚ) / 10) by ring,
      lt_div_iff (by norm_num : (0:ℚ) < 10)]
  rw [show ((s : ℚ) * 10 = ((10 * s : Nat) : ℚ)) by push_cast; ring]
  exact_mod_cast Iff.rfl

theorem ratio_gt_30 (c n : Nat) (hn : 0 < n) :
    ((c : ℚ) / (n : ℚ) > 3 / 10) ↔ 3 * n < 10 * c := by
  have hn' : (0 : ℚ) < (n : ℚ) := by exact_mod_cast hn
  rw [gt_iff_lt, div_lt_div_iff (by norm_num) hn']
  rw [show ((3 : ℚ) * (n : ℚ) = ((3 * n : Nat) : ℚ)) by push_cast; ring,
      show ((c : ℚ) * 10 = ((10 * c : Nat) : ℚ)) by push_cast; ring]
  exact Nat.cast_lt

theorem ratio_lt_half (c n : Nat) (hn : 0 < n) :
    ((c : ℚ) / (n : ℚ) < 1 / 2) ↔ 2 * c < n := by
  have hn' : (0 : ℚ) < (n : ℚ) := by exact_mod_cast hn
  rw [div_lt_div_iff hn' (by norm_num)]
  rw [show ((c : ℚ) * 2 = ((2 * c : Nat) : ℚ)) by push_cast; ring,
      show ((1 : ℚ) * (n : ℚ) = ((n : Nat) : ℚ)) by push_cast; ring]
  exact Nat.cast_lt

theorem asian_text_utf8 (d : List Nat) :
    _is_likely_misencoded_asian_text d "utf-8" = false := by
  simp [_is_likely_misencoded_asian_text]

theorem cross_asian_utf8 (d : List Nat) :
    _is_likely_misencoded_cross_asian d "utf-8" = false := by
  simp [_is_likely_misencoded_cross_asian]

theorem cross_asian_latin1 (d : List Nat) :
    _is_likely_misencoded_cross_asian d "latin-1" = false := by
  simp [_is_likely_misencoded_cross_asian]

theorem tryEncodings_cons (bs : List Nat) (e : String) (rest : List String) :
    tryEncodings bs (e :: rest) =
      match tryEncoding bs e with
      | some d => some d
      | none => tryEncodings bs rest := rfl

theorem dwf_eq_tryEncodings (bs : List Nat) :
    decode_with_fallback bs = tryEncodings bs ("utf-8" :: common_encodings) := by
  rw [tryEncodings_cons]
  unfold decode_with_fallback
  cases h : pyDecode bs "utf-8" with
  | none => simp [tryEncoding, h]
  | some d =>
    cases hl : _is_likely_text d with
    | true => simp [tryEncoding, h, hl, asian_text_utf8, cross_asian_utf8]
    | false => simp [tryEncoding, h, hl]

theorem tryEncodings_eq_findSome (bs : List Nat) (l : List String) :
    tryEncodings bs l = l.findSome? (tryEncoding bs) := by
  induction l with
  | nil => rfl
  | cons e rest ih =>
    unfold tryEncodings
    cases h : tryEncoding bs e <;> simp [List.findSome?, h, ih]

theorem tryEncodings_eq_none_iff (bs : List Nat) (l : List String) :
    tryEncodings bs l = none ↔ ∀ e ∈ l, tryEncoding bs e = none := by
  induction l with
  | nil => simp [tryEncodings]
  | cons e rest ih =>
    unfold tryEncodings
    cases h : tryEncoding bs e <;> simp [h, ih]

theorem not_likely_of_highControl (d : List Nat) (h : highControl d = true) :
    _is_likely_text d = false := by
  unfold highControl at h
  simp only [Bool.and_eq_true, Bool.not_eq_true', decide_eq_true_eq] at h
  obtain ⟨he, hc⟩ := h
  have hlen : 0 < d.length := by
    cases d with
    | nil => simp at he
    | cons a t => simp
  unfold _is_likely_text
  rw [if_neg (by simp [he])]
  simp only [decide_eq_false_iff_not]
  have hcount : d.countP isCtrlNonWs ≤ d.length := List.countP_le_length _
  omega

theorem tryEncoding_some_iff (bs : List Nat) (enc : String) (d : List Nat) :
    tryEncoding bs enc = some d ↔
      pyDecode bs enc = some d ∧ _is_likely_text d = true ∧
      _is_likely_misencoded_asian_text d enc = false ∧
      _is_likely_misencoded_cross_asian d enc = false := by
  unfold tryEncoding
  cases hd : pyDecode bs enc with
  | none => simp
  | some d2 =>
    dsimp only
    constructor
    · intro h
      split at h
      · cases h
      · split at h
        · cases h
        · split at h
          · cases h
          · rename_i h1 h2 h3
            injection h with h
            subst h
            simp only [Bool.not_eq_true] at h1
            exact ⟨rfl, by simpa using h1, by simpa using h2, by simpa using h3⟩
    · rintro ⟨he, hl, ha, hc⟩
      injection he with he
      subst he
      rw [hl, ha, hc]
      rfl

theorem tryEncoding_none_iff (bs : List Nat) (enc : String) :
    tryEncoding bs enc = none ↔
      ∀ d : List Nat, pyDecode bs enc = some d →
        _is_likely_text d = false ∨
        _is_likely_misencoded_asian_text d enc = true ∨
        _is_likely_misencoded_cross_asian d enc = true := by
  unfold tryEncoding
  cases hd : pyDecode bs enc with
  | none => simp
  | some d2 =>
    dsimp only
    constructor
    · intro h d he
      injection he with he
      subst he
      split at h
      · rename_i h1
        exact Or.inl (by simpa using h1)
      · split at h
        · rename_i h1 h2
          exact Or.inr (Or.inl h2)
        · split at h
          · rename_i h1 h2 h3
            exact Or.inr (Or.inr h3)
          · cases h
    · intro h
      rcases h d2 rfl with h1 | h2 | h3
      · rw [h1]; rfl
      · rw [h2]
        split
        · rfl
        · rfl
      · rw [h3]
        split
        · rfl
        · split
          · rfl
          · rfl

/-- C1: for every byte buffer, `decode_with_fallback` returns the decoded
text of the first accepted candidate, trying UTF-8 first and then exactly the
ordered list shift_jis, euc-kr, big5, gbk, gb2312, cp1251, iso-8859-2,
cp1252, latin-1, short-circuiting at the first acceptance (the first-match
semantics of `List.findSome?`); an accepted candidate's text is returned
verbatim (it is exactly what that candidate decoded); if no candidate is
accepted the sentinel `none` is returned, and only then. -/
theorem decode_with_fallback_first_acceptance :
    ∀ content_bytes : List Nat,
      decode_with_fallback content_bytes =
        List.findSome? (tryEncoding content_bytes)
          ["utf-8", "shift_jis", "euc-kr", "big5", "gbk", "gb2312",
           "cp1251", "iso-8859-2", "cp1252", "latin-1"] ∧
      (∀ (enc : String) (d : List Nat),
        tryEncoding content_bytes enc = some d →
          pyDecode content_bytes enc = some d) ∧
      (decode_with_fallback content_bytes = none ↔
        ∀ enc ∈ (["utf-8", "shift_jis", "euc-kr", "big5", "gbk", "gb2312",
           "cp1251", "iso-8859-2", "cp1252", "latin-1"] : List String),
          tryEncoding content_bytes enc = none) := by
  intro bs
  refine ⟨?_, ?_, ?_⟩
  · rw [show (["utf-8", "shift_jis", "euc-kr", "big5", "gbk", "gb2312",
        "cp1251", "iso-8859-2", "cp1252", "latin-1"] : List String)
        = "utf-8" :: common_encodings from rfl,
      ← tryEncodings_eq_findSome, dwf_eq_tryEncodings]
  · intro enc d h
    exact ((tryEncoding_some_iff bs enc d).mp h).1
  · rw [dwf_eq_tryEncodings, tryEncodings_eq_none_iff]
    exact Iff.rfl

/-- C2: `_is_likely_text` returns true for the empty string, and on a
non-empty string it returns true exactly when the number of code points below
32 other than tab, newline and carriage return, divided by the length, is at
most 0.3; a ratio of exactly 0.3 (three control characters in ten code
points) passes. -/
theorem is_likely_text_spec :
    _is_likely_text [] = true ∧
    (∀ s : List Nat, s ≠ [] →
      (_is_likely_text s = true ↔
        ((s.countP isCtrlNonWs : ℚ) / (s.length : ℚ) ≤ 3 / 10))) ∧
    _is_likely_text [0, 0, 0, 65, 65, 65, 65, 65, 65, 65] = true := by
  refine ⟨rfl, ?_, by decide⟩
  intro s hs
  have hn : 0 < s.length := List.length_pos.mpr hs
  unfold _is_likely_text
  rw [if_neg (by simp [hs])]
  rw [decide_eq_true_eq]
  exact (ratio_le_30 _ _ hn).symm

/-- C3: `_is_likely_misencoded_asian_text` returns true exactly when the
encoding is cp1252 or latin-1, the string is longer than 3, more than half
of the code points lie in U+0080–U+024F, and the spaces are fewer than 0.1
of the length; in particular it is false for every other encoding and for
every string of length at most 3. -/
theorem misencoded_asian_spec :
    ∀ (s : List Nat) (enc : String),
      _is_likely_misencoded_asian_text s enc = true ↔
        ((enc = "cp1252" ∨ enc = "latin-1") ∧ 3 < s.length ∧
         ((s.countP (fun c => 0x0080 ≤ c && c ≤ 0x024F) : ℚ) / (s.length : ℚ)
            > 1 / 2) ∧
         ((s.count 0x20 : ℚ) < (s.length : ℚ) * (1 / 10))) := by
  intro s enc
  unfold _is_likely_misencoded_asian_text
  split
  · rename_i h
    constructor
    · intro hf; cases hf
    · rintro ⟨hp, hl, -, -⟩
      rcases h with h | h
      · exact absurd hp h
      · omega
  · rename_i h
    push_neg at h
    obtain ⟨hp, hl⟩ := h
    have hn : 0 < s.length := by omega
    simp only [Bool.and_eq_true, decide_eq_true_eq]
    constructor
    · rintro ⟨h1, h2⟩
      exact ⟨hp, by omega, (ratio_gt_half _ _ hn).mpr h1, (lt_tenth _ _).mpr h2⟩
    · rintro ⟨-, -, h3, h4⟩
      exact ⟨(ratio_gt_half _ _ hn).mp h3, (lt_tenth _ _).mp h4⟩

/-- C5: the UTF-8 fast path: a buffer whose UTF-8 decoding succeeds and
passes `_is_likely_text` is returned immediately with no script-mismatch
heuristic consulted (the hypotheses mention only the plausibility filter);
the empty buffer yields the empty string; when UTF-8 decoding fails or the
filter rejects it, the result is that of the ordered candidate sweep, whose
list does not contain UTF-8. -/
theorem fast_path_utf8 :
    (∀ (bs d : List Nat), pyDecode bs "utf-8" = some d →
        _is_likely_text d = true → decode_with_fallback bs = some d) ∧
    decode_with_fallback [] = some [] ∧
    (∀ (bs d : List Nat), pyDecode bs "utf-8" = some d →
        _is_likely_text d = false →
        decode_with_fallback bs = tryEncodings bs common_encodings) ∧
    (∀ bs : List Nat, pyDecode bs "utf-8" = none →
        decode_with_fallback bs = tryEncodings bs common_encodings) ∧
    "utf-8" ∉ common_encodings := by
  refine ⟨?_, by decide, ?_, ?_, by decide⟩
  · intro bs d h hl
    unfold decode_with_fallback
    rw [h]
    simp [hl]
  · intro bs d h hl
    unfold decode_with_fallback
    rw [h]
    simp [hl]
  · intro bs h
    unfold decode_with_fallback
    rw [h]

/-- C4: `_is_likely_misencoded_cross_asian` is false on strings of length
at most 3, and otherwise true exactly when either (pattern A) the encoding
is shift_jis and the half-width katakana (U+FF61–U+FF9F) ratio exceeds 0.3,
or (pattern B) the encoding is one of big5, gbk, gb2312, shift_jis, euc-kr,
the string contains an ASCII code point and a CJK ideograph
(U+4E00–U+9FFF), has at least 2 ASCII letters, and its CJK ratio is below
0.5. -/
theorem misencoded_cross_asian_spec :
    ∀ (s : List Nat) (enc : String),
      _is_likely_misencoded_cross_asian s enc = true ↔
        (3 < s.length ∧
          ((enc = "shift_jis" ∧
             ((s.countP (fun c => 0xFF61 ≤ c && c ≤ 0xFF9F) : ℚ) /
                (s.length : ℚ) > 3 / 10)) ∨
           ((enc = "big5" ∨ enc = "gbk" ∨ enc = "gb2312" ∨
             enc = "shift_jis" ∨ enc = "euc-kr") ∧
            0 < s.countP (fun c => decide (c < 128)) ∧
            0 < s.countP (fun c => 0x4E00 ≤ c && c ≤ 0x9FFF) ∧
            2 ≤ s.countP (fun c => pyIsAlphaAscii c && decide (c < 128)) ∧
            ((s.countP (fun c => 0x4E00 ≤ c && c ≤ 0x9FFF) : ℚ) /
               (s.length : ℚ) < 1 / 2)))) := by
  intro s enc
  unfold _is_likely_misencoded_cross_asian
  split
  · rename_i hlen
    constructor
    · intro hf; cases hf
    · rintro ⟨hl, -⟩; omega
  · rename_i hlen
    push_neg at hlen
    have hn : 0 < s.length := by omega
    rw [ratio_gt_30 _ _ hn, ratio_lt_half _ _ hn]
    dsimp only
    by_cases hsj : enc = "shift_jis"
    · rw [hsj]
      rw [if_pos rfl]
      by_cases hkat : 3 * s.length <
          10 * s.countP (fun c => 0xFF61 ≤ c && c ≤ 0xFF9F)
      · rw [if_pos (by simpa using hkat)]
        constructor
        · intro
          exact ⟨hlen, Or.inl ⟨rfl, hkat⟩⟩
        · intro
          rfl
      · rw [if_neg (by simpa using hkat)]
        rw [if_pos (by tauto)]
        constructor
        · intro h
          split at h
          · rename_i hac
            simp only [Bool.and_eq_true, decide_eq_true_eq] at hac h
            exact ⟨hlen, Or.inr ⟨by tauto, hac.1, hac.2, h.1, h.2⟩⟩
          · cases h
        · rintro ⟨-, hcase⟩
          rcases hcase with ⟨-, hk⟩ | ⟨-, hA, hC, hL, hR⟩
          · exact absurd hk hkat
          · have hac : (decide (0 < s.countP (fun c => decide (c < 128))) &&
                decide (0 < s.countP (fun c => 0x4E00 ≤ c && c ≤ 0x9FFF)))
                = true := by
              simp only [Bool.and_eq_true, decide_eq_true_eq]
              exact ⟨hA, hC⟩
            rw [if_pos hac]
            simp only [Bool.and_eq_true, decide_eq_true_eq]
            exact ⟨hL, hR⟩
    · rw [if_neg hsj]
      rw [if_neg (by simp)]
      by_cases hset : enc = "big5" ∨ enc = "gbk" ∨ enc = "gb2312" ∨
          enc = "shift_jis" ∨ enc = "euc-kr"
      · rw [if_pos hset]
        constructor
        · intro h
          split at h
          · rename_i hac
            simp only [Bool.and_eq_true, decide_eq_true_eq] at hac h
            exact ⟨hlen, Or.inr ⟨hset, hac.1, hac.2, h.1, h.2⟩⟩
          · cases h
        · rintro ⟨-, hcase⟩
          rcases hcase with ⟨hj, -⟩ | ⟨-, hA, hC, hL, hR⟩
          · exact absurd hj hsj
          · have hac : (decide (0 < s.countP (fun c => decide (c < 128))) &&
                decide (0 < s.countP (fun c => 0x4E00 ≤ c && c ≤ 0x9FFF)))
                = true := by
              simp only [Bool.and_eq_true, decide_eq_true_eq]
              exact ⟨hA, hC⟩
            rw [if_pos hac]
            simp only [Bool.and_eq_true, decide_eq_true_eq]
            exact ⟨hL, hR⟩
      · rw [if_neg hset]
        constructor
        · intro hf; cases hf
        · rintro ⟨-, hcase⟩
          rcases hcase with ⟨hj, -⟩ | ⟨hs5, -⟩
          · exact absurd hj hsj
          · exact absurd hs5 hset

/-- C7: any buffer each of whose successful candidate decodings is nonempty
and at least 70% control characters (excluding tab/newline/CR) is reported
as the binary sentinel `none`; in particular the four documented binary
buffers [0xFF,0xFE,0,0,1,2,3], ten nulls, 0x01..0x05, and the JPEG header
[0xFF,0xD8,0xFF,0xE0,0,0x10] all yield `none`. -/
theorem binary_buffers_sentinel :
    (∀ bs : List Nat,
      (∀ enc ∈ "utf-8" :: common_encodings,
        Option.all highControl (pyDecode bs enc) = true) →
      decode_with_fallback bs = none) ∧
    decode_with_fallback [0xFF, 0xFE, 0x00, 0x00, 0x01, 0x02, 0x03] = none ∧
    decode_with_fallback (List.replicate 10 0x00) = none ∧
    decode_with_fallback [0x01, 0x02, 0x03, 0x04, 0x05] = none ∧
    decode_with_fallback [0xFF, 0xD8, 0xFF, 0xE0, 0x00, 0x10] = none := by
  refine ⟨?_, by decide, by decide, by decide, by decide⟩
  intro bs h
  rw [dwf_eq_tryEncodings, tryEncodings_eq_none_iff]
  intro e he
  have he2 := h e he
  rw [tryEncoding_none_iff]
  intro d hd
  rw [hd] at he2
  simp only [Option.all] at he2
  exact Or.inl (not_likely_of_highControl d he2)

/-- C9: error handling: a candidate whose decode fails (invalid byte
sequence, or an unknown encoding name, which the decoder model maps to
`none` like `LookupError`) is recovered locally by advancing to the next
candidate; the engine is a total function whose exhaustion case is exactly
the sentinel `none` (never an exception): it is `none` iff the fast path and
every listed candidate reject. -/
theorem per_candidate_error_recovery :
    (∀ (bs : List Nat) (enc : String) (rest : List String),
        pyDecode bs enc = none →
        tryEncodings bs (enc :: rest) = tryEncodings bs rest) ∧
    (∀ (bs : List Nat) (enc : String),
        enc ∉ ["utf-8", "shift_jis", "euc-kr", "big5", "gbk", "gb2312",
               "cp1251", "iso-8859-2", "cp1252", "latin-1"] →
        pyDecode bs enc = none) ∧
    (∀ bs : List Nat,
        decode_with_fallback bs = none ↔
          tryEncoding bs "utf-8" = none ∧
          ∀ enc ∈ common_encodings, tryEncoding bs enc = none) := by
  refine ⟨?_, ?_, ?_⟩
  · intro bs enc rest h
    rw [tryEncodings_cons]
    have he : tryEncoding bs enc = none := by
      unfold tryEncoding
      rw [h]
    rw [he]
  · intro bs enc h
    unfold pyDecode
    split <;> simp_all
  · intro bs
    rw [dwf_eq_tryEncodings, tryEncodings_eq_none_iff]
    exact List.forall_mem_cons

/-- C10: `none` only past the latin-1 backstop: the sentinel occurs only
for a non-empty buffer whose latin-1 decoding (always successful, one code
point per byte: it is the byte list itself) is rejected by the plausibility
filter or by the Western-misreads-Asian heuristic; the cross-Asian heuristic
never fires for latin-1; and a buffer whose latin-1 decoding passes those
two checks is never reported as `none`. -/
theorem latin1_backstop :
    (∀ bs : List Nat, decode_with_fallback bs = none →
        bs ≠ [] ∧ pyDecode bs "latin-1" = some bs ∧
        (_is_likely_text bs = false ∨
         _is_likely_misencoded_asian_text bs "latin-1" = true)) ∧
    (∀ s : List Nat, _is_likely_misencoded_cross_asian s "latin-1" = false) ∧
    (∀ bs : List Nat, _is_likely_text bs = true →
        _is_likely_misencoded_asian_text bs "latin-1" = false →
        decode_with_fallback bs ≠ none) := by
  refine ⟨?_, cross_asian_latin1, ?_⟩
  · intro bs h
    have hall := (tryEncodings_eq_none_iff bs _).mp
      (by rw [← dwf_eq_tryEncodings]; exact h)
    have hl1 : tryEncoding bs "latin-1" = none := hall "latin-1" (by decide)
    refine ⟨?_, rfl, ?_⟩
    · rintro rfl
      exact absurd h (by decide)
    · rcases (tryEncoding_none_iff bs "latin-1").mp hl1 bs rfl with h1 | h2 | h3
      · exact Or.inl h1
      · exact Or.inr h2
      · rw [cross_asian_latin1] at h3
        cases h3
  · intro bs h1 h2 hn
    have hall := (tryEncodings_eq_none_iff bs _).mp
      (by rw [← dwf_eq_tryEncodings]; exact hn)
    have hl1 : tryEncoding bs "latin-1" = none := hall "latin-1" (by decide)
    rcases (tryEncoding_none_iff bs "latin-1").mp hl1 bs rfl with hx | hx | hx
    · rw [h1] at hx
      cases hx
    · rw [h2] at hx
      cases hx
    · rw [cross_asian_latin1] at hx
      cases hx

/-- C6 counterexample: the round-trip claim is false as a universal
statement: the string of four U+0001 code points is composed only of
characters representable in UTF-8 and encodes to the bytes [1,1,1,1], but
the engine maps those bytes to the binary sentinel `none`, not back to the
original string (every candidate decodes them to four control characters,
which the plausibility filter rejects). -/
theorem round_trip_counterexample :
    pyEncode [1, 1, 1, 1] "utf-8" = some [1, 1, 1, 1] ∧
    decode_with_fallback [1, 1, 1, 1] = none ∧
    ¬ (∀ (s bs : List Nat), pyEncode s "utf-8" = some bs →
        decode_with_fallback bs = some s) := by
  refine ⟨by decide, by decide, fun h => ?_⟩
  have hc := h [1, 1, 1, 1] [1, 1, 1, 1] (by decide)
  exact absurd hc (by decide)

/-- C6 (amended): the round trip encode-then-engine returns the original
string for the documented confirmed-detected cases: ASCII text under UTF-8,
CP1252 text containing the trademark symbol, Shift-JIS Japanese, EUC-KR
Korean, Big5 Traditional Chinese, and CP1251 Cyrillic. -/
theorem round_trip_documented_cases :
    (pyEncode [72, 101, 108, 108, 111, 44, 32, 87, 111, 114, 108, 100, 33]
        "utf-8"
      = some [72, 101, 108, 108, 111, 44, 32, 87, 111, 114, 108, 100, 33] ∧
     decode_with_fallback
        [72, 101, 108, 108, 111, 44, 32, 87, 111, 114, 108, 100, 33]
      = some [72, 101, 108, 108, 111, 44, 32, 87, 111, 114, 108, 100, 33]) ∧
    (pyEncode [87, 105, 110, 100, 111, 119, 115, 0x2122, 32, 116, 101, 120,
        116] "cp1252"
      = some [87, 105, 110, 100, 111, 119, 115, 0x99, 32, 116, 101, 120,
        116] ∧
     decode_with_fallback
        [87, 105, 110, 100, 111, 119, 115, 0x99, 32, 116, 101, 120, 116]
      = some [87, 105, 110, 100, 111, 119, 115, 0x2122, 32, 116, 101, 120,
        116]) ∧
    (pyEncode [0x3053, 0x3093, 0x306B, 0x3061, 0x306F, 0x4E16, 0x754C]
        "shift_jis"
      = some [0x82, 0xB1, 0x82, 0xF1, 0x82, 0xC9, 0x82, 0xBF, 0x82, 0xCD,
        0x90, 0xA2, 0x8A, 0x45] ∧
     decode_with_fallback [0x82, 0xB1, 0x82, 0xF1, 0x82, 0xC9, 0x82, 0xBF,
        0x82, 0xCD, 0x90, 0xA2, 0x8A, 0x45]
      = some [0x3053, 0x3093, 0x306B, 0x3061, 0x306F, 0x4E16, 0x754C]) ∧
    (pyEncode [0xC548, 0xB155, 0xD558, 0xC138, 0xC694] "euc-kr"
      = some [0xBE, 0xC8, 0xB3, 0xE7, 0xC7, 0xCF, 0xBC, 0xBC, 0xBF, 0xE4] ∧
     decode_with_fallback
        [0xBE, 0xC8, 0xB3, 0xE7, 0xC7, 0xCF, 0xBC, 0xBC, 0xBF, 0xE4]
      = some [0xC548, 0xB155, 0xD558, 0xC138, 0xC694]) ∧
    (pyEncode [0x7E41, 0x9AD4, 0x4E2D, 0x6587] "big5"
      = some [0xC1, 0x63, 0xC5, 0xE9, 0xA4, 0xA4, 0xA4, 0xE5] ∧
     decode_with_fallback [0xC1, 0x63, 0xC5, 0xE9, 0xA4, 0xA4, 0xA4, 0xE5]
      = some [0x7E41, 0x9AD4, 0x4E2D, 0x6587]) ∧
    (pyEncode [0x41F, 0x440, 0x438, 0x432, 0x435, 0x442, 0x20, 0x43C, 0x438,
        0x440] "cp1251"
      = some [0xCF, 0xF0, 0xE8, 0xE2, 0xE5, 0xF2, 0x20, 0xEC, 0xE8, 0xF0] ∧
     decode_with_fallback
        [0xCF, 0xF0, 0xE8, 0xE2, 0xE5, 0xF2, 0x20, 0xEC, 0xE8, 0xF0]
      = some [0x41F, 0x440, 0x438, 0x432, 0x435, 0x442, 0x20, 0x43C, 0x438,
        0x440]) := by
  decide

/-- C8: the four documented known-misdetection inputs (Chinese under GBK,
Chinese under GB2312, Western-accented text under ISO-8859-1,
Central-European text under ISO-8859-2) are each decoded by the engine to a
non-null, non-empty string that differs from the original plaintext. -/
theorem known_misdetections :
    (pyEncode [0x4F60, 0x597D, 0x4E16, 0x754C] "gbk"
      = some [0xC4, 0xE3, 0xBA, 0xC3, 0xCA, 0xC0, 0xBD, 0xE7] ∧
     decode_with_fallback [0xC4, 0xE3, 0xBA, 0xC3, 0xCA, 0xC0, 0xBD, 0xE7]
      = some [0xCF71, 0xBD24, 0x5404, 0xC379] ∧
     [0xCF71, 0xBD24, 0x5404, 0xC379] ≠ ([] : List Nat) ∧
     [0xCF71, 0xBD24, 0x5404, 0xC379] ≠ [0x4F60, 0x597D, 0x4E16, 0x754C]) ∧
    (pyEncode [0x4E2D, 0x6587, 0x6D4B, 0x8BD5] "gb2312"
      = some [0xD6, 0xD0, 0xCE, 0xC4, 0xB2, 0xE2, 0xCA, 0xD4] ∧
     decode_with_fallback [0xD6, 0xD0, 0xCE, 0xC4, 0xB2, 0xE2, 0xCA, 0xD4]
      = some [0x6AD3, 0x5321, 0xAFCE, 0x687F] ∧
     [0x6AD3, 0x5321, 0xAFCE, 0x687F] ≠ ([] : List Nat) ∧
     [0x6AD3, 0x5321, 0xAFCE, 0x687F] ≠ [0x4E2D, 0x6587, 0x6D4B, 0x8BD5]) ∧
    (pyEncode [0x48, 0xE9, 0x6C, 0x6C, 0x6F, 0x20, 0x57, 0xF6, 0x72, 0x6C,
        0x64] "iso-8859-1"
      = some [0x48, 0xE9, 0x6C, 0x6C, 0x6F, 0x20, 0x57, 0xF6, 0x72, 0x6C,
        0x64] ∧
     decode_with_fallback [0x48, 0xE9, 0x6C, 0x6C, 0x6F, 0x20, 0x57, 0xF6,
        0x72, 0x6C, 0x64]
      = some [0x48, 0x439, 0x6C, 0x6C, 0x6F, 0x20, 0x57, 0x446, 0x72, 0x6C,
        0x64] ∧
     [0x48, 0x439, 0x6C, 0x6C, 0x6F, 0x20, 0x57, 0x446, 0x72, 0x6C, 0x64]
      ≠ ([] : List Nat) ∧
     [0x48, 0x439, 0x6C, 0x6C, 0x6F, 0x20, 0x57, 0x446, 0x72, 0x6C, 0x64]
      ≠ [0x48, 0xE9, 0x6C, 0x6C, 0x6F, 0x20, 0x57, 0xF6, 0x72, 0x6C,
        0x64]) ∧
    (pyEncode [0x43, 0x7A, 0x65, 0x15B, 0x107, 0x20, 0x15B, 0x77, 0x69,
        0x61, 0x74] "iso-8859-2"
      = some [0x43, 0x7A, 0x65, 0xB6, 0xE6, 0x20, 0xB6, 0x77, 0x69, 0x61,
        0x74] ∧
     decode_with_fallback [0x43, 0x7A, 0x65, 0xB6, 0xE6, 0x20, 0xB6, 0x77,
        0x69, 0x61, 0x74]
      = some [0x43, 0x7A, 0x65, 0xB6, 0x436, 0x20, 0xB6, 0x77, 0x69, 0x61,
        0x74] ∧
     [0x43, 0x7A, 0x65, 0xB6, 0x436, 0x20, 0xB6, 0x77, 0x69, 0x61, 0x74]
      ≠ ([] : List Nat) ∧
     [0x43, 0x7A, 0x65, 0xB6, 0x436, 0x20, 0xB6, 0x77, 0x69, 0x61, 0x74]
      ≠ [0x43, 0x7A, 0x65, 0x15B, 0x107, 0x20, 0x15B, 0x77, 0x69, 0x61,
        0x74]) := by
  decide

/-- Witness for C1: the first-acceptance theorem applied at shift_jis
Japanese bytes (verbatim conjunct) and at a control-character buffer
(exhaustion conjunct), with the hypotheses discharged by evaluation. -/
theorem decode_with_fallback_first_acceptance_witness :
    pyDecode [0x82, 0xB1, 0x82, 0xF1] "shift_jis" = some [0x3053, 0x3093] ∧
    decode_with_fallback [1, 2, 3, 4, 5] = none := by
  constructor
  · exact (decode_with_fallback_first_acceptance [0x82, 0xB1, 0x82, 0xF1]).2.1
      "shift_jis" [0x3053, 0x3093] (by decide)
  · exact (decode_with_fallback_first_acceptance [1, 2, 3, 4, 5]).2.2.mpr
      (by decide)

/-- Witness for C2: the non-empty characterization applied at the string
"AB". -/
theorem is_likely_text_spec_witness :
    ([65, 66] : List Nat) ≠ [] ∧
    (_is_likely_text [65, 66] = true ↔
      ((([65, 66] : List Nat).countP isCtrlNonWs : ℚ) /
        (([65, 66] : List Nat).length : ℚ) ≤ 3 / 10)) :=
  ⟨by decide, is_likely_text_spec.2.1 [65, 66] (by decide)⟩

/-- Witness for C5: the fast-path theorem applied at the ASCII buffer "Hi"
and the fall-through conjunct applied at four U+0001 bytes. -/
theorem fast_path_utf8_witness :
    decode_with_fallback [72, 105] = some [72, 105] ∧
    decode_with_fallback [1, 1, 1, 1] =
      tryEncodings [1, 1, 1, 1] common_encodings := by
  constructor
  · exact fast_path_utf8.1 [72, 105] [72, 105] (by decide) (by decide)
  · exact fast_path_utf8.2.2.1 [1, 1, 1, 1] [1, 1, 1, 1] (by decide)
      (by decide)

/-- Witness for C7: the control-density theorem applied at the buffer
0x01..0x05, whose every candidate decoding is 100% control characters. -/
theorem binary_buffers_sentinel_witness :
    decode_with_fallback [1, 2, 3, 4, 5] = none :=
  binary_buffers_sentinel.1 [1, 2, 3, 4, 5] (by decide)

/-- Witness for C9: candidate advancement applied at a buffer shift_jis
cannot decode, and the unknown-name conjunct applied at "koi8-r". -/
theorem per_candidate_error_recovery_witness :
    tryEncodings [0xFF] ("shift_jis" :: ["latin-1"])
      = tryEncodings [0xFF] ["latin-1"] ∧
    pyDecode [72] "koi8-r" = none := by
  constructor
  · exact per_candidate_error_recovery.1 [0xFF] "shift_jis" ["latin-1"]
      (by decide)
  · exact per_candidate_error_recovery.2.1 [72] "koi8-r" (by decide)

/-- Witness for C10: the backstop theorem applied at four U+0001 bytes
(which the engine reports as the sentinel) and at the ASCII buffer "Hi"
(which it never reports as the sentinel). -/
theorem latin1_backstop_witness :
    (([1, 1, 1, 1] : List Nat) ≠ [] ∧
      pyDecode [1, 1, 1, 1] "latin-1" = some [1, 1, 1, 1] ∧
      (_is_likely_text [1, 1, 1, 1] = false ∨
       _is_likely_misencoded_asian_text [1, 1, 1, 1] "latin-1" = true)) ∧
    decode_with_fallback [72, 105] ≠ none := by
  constructor
  · exact latin1_backstop.1 [1, 1, 1, 1] (by decide)
  · exact latin1_backstop.2.2 [72, 105] (by decide) (by decide)
